import Mathlib

/-
Shallow embedding of the Endur TypeScript SDK holdings-aggregation engine.

Conventions of the embedding:
- JavaScript BigInt values (always produced from decimal strings and turned
  back into decimal strings) are modelled by Int; on-chain u256 reads are
  modelled by Nat where the code can only ever see nonnegative values.
- JavaScript Number values that flow through arithmetic are modelled by Rat;
  every concrete value appearing in a theorem below is exactly representable
  in binary64, so the rational model agrees with the JS evaluation there.
- Promises are modelled by explicit result values: a promise that resolves
  is a value, a promise that rejects carries its error message in an
  Except/sum type.  Chain calls and other external reads are supplied as
  oracle arguments.
- The while loop of HoldingsManager.getMultiProtocolHoldings has no
  textual termination measure in the source, so it is embedded with an
  explicit fuel parameter; running out of fuel is reported as a distinct
  outcome and divergence is the statement that every fuel amount runs out.
-/

/-- The central value type (src/types, ProtocolHoldings): a pair of BigInt
decimal strings, modelled by their integer values. -/
structure ProtocolHoldings where
  xSTRKAmount : Int
  STRKAmount : Int
deriving DecidableEq, Repr

/-- BaseHoldingsService.createZeroHoldings: both components the textual zero. -/
def zeroHoldings : ProtocolHoldings := { xSTRKAmount := 0, STRKAmount := 0 }

/-- Componentwise BigInt addition used when folding holdings into totals. -/
def addHoldings (a b : ProtocolHoldings) : ProtocolHoldings :=
  { xSTRKAmount := a.xSTRKAmount + b.xSTRKAmount,
    STRKAmount := a.STRKAmount + b.STRKAmount }

/-- A starknet.js BlockIdentifier as the SDK actually uses it: an integer
Number, a non-integer Number (intNum and floatNum split the JS Number domain
by the result of Number.isInteger), or one of the two string sentinels. -/
inductive BlockId where
  | intNum (n : Int)
  | floatNum (q : Rat)
  | latest
  | pending
deriving DecidableEq, Repr

/-- JS comparison blockNumber > maxBlock: numeric for Numbers, false for the
string sentinels (their Number coercion is NaN and NaN comparisons are false). -/
def gtMax : BlockId → Int → Bool
  | BlockId.intNum n, r => decide (r < n)
  | BlockId.floatNum q, r => decide ((r : Rat) < q)
  | BlockId.latest, _ => false
  | BlockId.pending, _ => false

/-- JS truthiness test !blockNumber: the Number zero is falsy, the two
nonempty sentinel strings are truthy. -/
def isFalsyBlock : BlockId → Bool
  | BlockId.intNum n => decide (n = 0)
  | BlockId.floatNum q => decide (q = 0)
  | BlockId.latest => false
  | BlockId.pending => false

/-- Number.isInteger(blockNumber) && blockNumber < deploymentBlock. -/
def belowDeployment : BlockId → Int → Bool
  | BlockId.intNum n, d => decide (n < d)
  | BlockId.floatNum _, _ => false
  | BlockId.latest, _ => false
  | BlockId.pending, _ => false

/-- BaseHoldingsService.isContractDeployed (dist/index.mjs lines 702 to 706):
lowerCondition is Number.isInteger(blockNumber) && blockNumber < deploymentBlock;
upperCondition is maxBlock && (blockNumber > maxBlock || blockNumber === "latest"
|| blockNumber === "pending" || !blockNumber); the result is
!(lowerCondition || upperCondition).  The JS truthiness of maxBlock (undefined
and 0 are falsy) is modelled by the Option and the explicit zero test. -/
def isContractDeployed (blockNumber : BlockId) (deploymentBlock : Int)
    (maxBlock : Option Int) : Bool :=
  let lowerCondition := belowDeployment blockNumber deploymentBlock
  let upperCondition :=
    match maxBlock with
    | none => false
    | some r =>
        (!(decide (r = 0))) &&
          (gtMax blockNumber r || decide (blockNumber = BlockId.latest) ||
            decide (blockNumber = BlockId.pending) || isFalsyBlock blockNumber)
  !(lowerCondition || upperCondition)

/-- The callers pass an optional BlockIdentifier; the JS default parameter
replaces an absent argument by the string "pending". -/
def isContractDeployedOpt (blockNumber : Option BlockId) (deploymentBlock : Int)
    (maxBlock : Option Int) : Bool :=
  isContractDeployed (blockNumber.getD BlockId.pending) deploymentBlock maxBlock

/-- Claim C5 counterexample: the claim asserts that a non-integer selector is
treated identically to a current sentinel for the upper-bound check, but with
deploymentBlock 1 and retirementBlock 10 the non-integer selector 11/2 passes
the gate (it is compared numerically against the retirement block) while the
pending sentinel is rejected. -/
theorem claim_C5_counterexample :
    isContractDeployed (BlockId.floatNum (11 / 2)) 1 (some 10) = true ∧
      isContractDeployed BlockId.pending 1 (some 10) = false := by
  have h1 : ¬ (10 : Rat) < 11 / 2 := by norm_num
  have h2 : ¬ (11 / 2 : Rat) = 0 := by norm_num
  constructor
  · simp [isContractDeployed, belowDeployment, gtMax, isFalsyBlock, h1, h2]
  · rfl

/-- Claim C5 as amended: restricted to positive deployment and retirement
blocks (D at least 1, R at least D), the gate is false for an integer block
strictly below D, true for D up to R, false strictly above R, false at the
latest, pending and absent selectors when R is present, true at those
selectors when R is absent, and an integer block behaves monotonely when R is
absent; a non-integer numeric selector skips the lower-bound check and passes
the gate exactly when it does not exceed R, rather than being treated as a
current sentinel. -/
theorem claim_C5 (D R b : Int) (q : Rat) (hD : 1 ≤ D) (hDR : D ≤ R)
    (hq0 : ¬ q = 0) :
    (b < D → isContractDeployed (BlockId.intNum b) D (some R) = false)
    ∧ (D ≤ b → b ≤ R → isContractDeployed (BlockId.intNum b) D (some R) = true)
    ∧ (R < b → isContractDeployed (BlockId.intNum b) D (some R) = false)
    ∧ isContractDeployed BlockId.latest D (some R) = false
    ∧ isContractDeployed BlockId.pending D (some R) = false
    ∧ isContractDeployedOpt none D (some R) = false
    ∧ isContractDeployed BlockId.latest D none = true
    ∧ isContractDeployed BlockId.pending D none = true
    ∧ isContractDeployedOpt none D none = true
    ∧ (b < D → isContractDeployed (BlockId.intNum b) D none = false)
    ∧ (D ≤ b → isContractDeployed (BlockId.intNum b) D none = true)
    ∧ ((R : Rat) < q → isContractDeployed (BlockId.floatNum q) D (some R) = false)
    ∧ (q ≤ (R : Rat) → isContractDeployed (BlockId.floatNum q) D (some R) = true) := by
  have hR0 : ¬ R = 0 := by omega
  refine ⟨?_, ?_, ?_, ?_, ?_, ?_, ?_, ?_, ?_, ?_, ?_, ?_, ?_⟩
  · intro hb
    simp [isContractDeployed, belowDeployment, hb]
  · intro hDb hbR
    simp [isContractDeployed, belowDeployment, gtMax, isFalsyBlock, hR0] <;> omega
  · intro hRb
    simp [isContractDeployed, belowDeployment, gtMax, hR0, hRb] <;> omega
  · simp [isContractDeployed, belowDeployment, gtMax, isFalsyBlock, hR0]
  · simp [isContractDeployed, belowDeployment, gtMax, isFalsyBlock, hR0]
  · simp [isContractDeployedOpt, isContractDeployed, belowDeployment, gtMax,
      isFalsyBlock, hR0]
  · simp [isContractDeployed, belowDeployment]
  · simp [isContractDeployed, belowDeployment]
  · simp [isContractDeployedOpt, isContractDeployed, belowDeployment]
  · intro hb
    simp [isContractDeployed, belowDeployment, hb]
  · intro hDb
    simp [isContractDeployed, belowDeployment] <;> omega
  · intro hRq
    simp [isContractDeployed, belowDeployment, gtMax, isFalsyBlock, hR0, hRq]
  · intro hqR
    simp [isContractDeployed, belowDeployment, gtMax, isFalsyBlock, hR0,
      not_lt.mpr hqR, hq0]

/-- Claim C5 witness: the amended gate facts evaluated at deploymentBlock 2,
retirementBlock 5 and concrete selectors. -/
theorem claim_C5_witness :
    isContractDeployed (BlockId.intNum 1) 2 (some 5) = false
    ∧ isContractDeployed (BlockId.intNum 3) 2 (some 5) = true
    ∧ isContractDeployed (BlockId.intNum 6) 2 (some 5) = false
    ∧ isContractDeployed BlockId.pending 2 (some 5) = false
    ∧ isContractDeployed BlockId.pending 2 none = true
    ∧ isContractDeployed (BlockId.floatNum (7 / 2)) 2 (some 5) = true :=
  ⟨(claim_C5 2 5 1 (7 / 2) (by decide) (by decide) (by norm_num)).1 (by decide),
   ((claim_C5 2 5 3 (7 / 2) (by decide) (by decide) (by norm_num)).2.1
      (by decide) (by decide)),
   ((claim_C5 2 5 6 (7 / 2) (by decide) (by decide) (by norm_num)).2.2.1
      (by decide)),
   (claim_C5 2 5 6 (7 / 2) (by decide) (by decide) (by norm_num)).2.2.2.2.1,
   (claim_C5 2 5 6 (7 / 2) (by decide) (by decide) (by norm_num)).2.2.2.2.2.2.2.1,
   ((claim_C5 2 5 6 (7 / 2) (by decide) (by decide)
      (by norm_num)).2.2.2.2.2.2.2.2.2.2.2.2 (by norm_num))⟩

/-- The eight protocol identifiers registered by HoldingsManager. -/
inductive ProtocolType where
  | lst
  | ekubo
  | nostraLending
  | nostraDex
  | opus
  | strkfarm
  | strkfarmEkubo
  | vesu
deriving DecidableEq, Repr

/-- The TS string-literal key under which each service is registered. -/
def protocolKey : ProtocolType → String
  | ProtocolType.lst => "lst"
  | ProtocolType.ekubo => "ekubo"
  | ProtocolType.nostraLending => "nostraLending"
  | ProtocolType.nostraDex => "nostraDex"
  | ProtocolType.opus => "opus"
  | ProtocolType.strkfarm => "strkfarm"
  | ProtocolType.strkfarmEkubo => "strkfarmEkubo"
  | ProtocolType.vesu => "vesu"

/-- HoldingsResponse (src/types): success flag, optional data, optional error
message, protocol label and timestamp. -/
structure HoldingsResponse where
  success : Bool
  data : Option ProtocolHoldings
  error : Option String
  protocol : String
  timestamp : Nat
deriving DecidableEq, Repr

/-- The outcome of one awaited getProtocolHoldings invocation: the promise
either resolves to a HoldingsResponse or rejects with an error. -/
inductive Outcome where
  | resolved (r : HoldingsResponse)
  | thrown (e : String)
deriving DecidableEq, Repr

/-- True when the invocation resolved rather than threw. -/
def Outcome.isResolved : Outcome → Bool
  | Outcome.resolved _ => true
  | Outcome.thrown _ => false

/-- The mutable locals of getMultiProtocolHoldings: the byProtocol record and
the running total. -/
structure AggState where
  byProtocol : List (ProtocolType × ProtocolHoldings)
  total : ProtocolHoldings
deriving DecidableEq, Repr

/-- The byProtocol object literal: all eight protocols mapped to zero
holdings, in source order, independent of the requested subset. -/
def initByProtocol : List (ProtocolType × ProtocolHoldings) :=
  [(ProtocolType.lst, zeroHoldings), (ProtocolType.ekubo, zeroHoldings),
   (ProtocolType.nostraLending, zeroHoldings), (ProtocolType.nostraDex, zeroHoldings),
   (ProtocolType.opus, zeroHoldings), (ProtocolType.strkfarm, zeroHoldings),
   (ProtocolType.strkfarmEkubo, zeroHoldings), (ProtocolType.vesu, zeroHoldings)]

/-- Assignment byProtocol[protocol] = h; every ProtocolType is already a key
of the object literal, so updating in place preserves the key set. -/
def setEntry (m : List (ProtocolType × ProtocolHoldings)) (p : ProtocolType)
    (h : ProtocolHoldings) : List (ProtocolType × ProtocolHoldings) :=
  m.map fun e => if e.1 = p then (p, h) else e

/-- The initial locals: byProtocol with eight zero entries and a zero total. -/
def initAggState : AggState := { byProtocol := initByProtocol, total := zeroHoldings }

/-- MAX_RETRIES constant of getMultiProtocolHoldings. -/
def MAX_RETRIES : Nat := 1

/-- MultiProtocolHoldings (src/types): total, byProtocol and the requested
protocol list. -/
structure MultiProtocolHoldings where
  total : ProtocolHoldings
  byProtocol : List (ProtocolType × ProtocolHoldings)
  protocols : List ProtocolType
deriving DecidableEq, Repr

/-- The per-protocol while loop of getMultiProtocolHoldings (part_005 lines 90
to 112), driven by the stream of invocation outcomes for this protocol.  The
loop keeps calling getProtocolHoldings while retry < MAX_RETRIES; a resolved
response only updates byProtocol and total (a successful response with data is
written into byProtocol and added to total, any other resolved response resets
the entry to zero) and reaches the loop condition again with retry unchanged;
a rejection increments retry and, because retry then equals MAX_RETRIES,
rethrows the error.  Fuel counts loop iterations; none means the fuel ran out
with the loop still running. -/
def protocolLoop (oracle : Nat → Outcome) (p : ProtocolType) :
    Nat → Nat → Nat → AggState → Option (Option String × AggState)
  | 0, _, _, _ => none
  | fuel + 1, retry, idx, st =>
    if retry < MAX_RETRIES then
      match oracle idx with
      | Outcome.resolved r =>
        let st2 :=
          if r.success && r.data.isSome then
            let d := r.data.getD zeroHoldings
            { byProtocol := setEntry st.byProtocol p d,
              total := addHoldings st.total d }
          else
            { st with byProtocol := setEntry st.byProtocol p zeroHoldings }
        protocolLoop oracle p fuel retry (idx + 1) st2
      | Outcome.thrown e =>
        if retry + 1 < MAX_RETRIES then
          protocolLoop oracle p fuel (retry + 1) (idx + 1) st
        else
          some (some e, st)
    else
      some (none, st)

/-- The fan-out over the requested protocols followed by Promise.all: each
protocol runs its loop; the await rethrows the first rejection, and resolves
only when every loop has exited normally.  The single-threaded event loop
makes each resolved-response state update atomic, so the interleaving is
modelled by running the loops in list order. -/
def runProtocols (oracle : ProtocolType → Nat → Outcome) (fuel : Nat) :
    List ProtocolType → AggState → Option (Option String × AggState)
  | [], st => some (none, st)
  | p :: ps, st =>
    match protocolLoop (oracle p) p fuel 0 0 st with
    | none => none
    | some (some e, st2) => some (some e, st2)
    | some (none, st2) => runProtocols oracle fuel ps st2

/-- The observable outcome of a call to getMultiProtocolHoldings: still
running when the fuel is exhausted, rejected with an error, or resolved. -/
inductive RunOutcome where
  | diverged
  | rejected (e : String)
  | ok (res : MultiProtocolHoldings)
deriving DecidableEq, Repr

/-- HoldingsManager.getMultiProtocolHoldings (part_005 lines 74 to 121) for a
requested protocol list, with the behaviour of every getProtocolHoldings
invocation supplied by the oracle. -/
def getMultiProtocolHoldings (oracle : ProtocolType → Nat → Outcome)
    (fuel : Nat) (protocols : List ProtocolType) : RunOutcome :=
  match runProtocols oracle fuel protocols initAggState with
  | none => RunOutcome.diverged
  | some (some e, _) => RunOutcome.rejected e
  | some (none, st) =>
      RunOutcome.ok { total := st.total, byProtocol := st.byProtocol,
                      protocols := protocols }

/-- Helper: launched with retry = 0, the while loop never exits through its
condition; every exit carries an error. -/
theorem protocolLoop_exit_isThrow (oracle : Nat → Outcome) (p : ProtocolType) :
    ∀ fuel idx st r, protocolLoop oracle p fuel 0 idx st = some r →
      r.1.isSome = true := by
  intro fuel
  induction fuel with
  | zero => intro idx st r h; simp [protocolLoop] at h
  | succ n ih =>
    intro idx st r h
    rw [protocolLoop] at h
    simp only [MAX_RETRIES] at h
    norm_num at h
    cases hoc : oracle idx with
    | resolved resp =>
      rw [hoc] at h
      exact ih (idx + 1) _ r h
    | thrown e =>
      rw [hoc] at h
      norm_num at h
      rw [← h]
      rfl

/-- Helper: when every invocation resolves, the loop consumes all its fuel
without exiting. -/
theorem protocolLoop_allResolved (oracle : Nat → Outcome) (p : ProtocolType)
    (hres : ∀ i, (oracle i).isResolved = true) :
    ∀ fuel idx st, protocolLoop oracle p fuel 0 idx st = none := by
  intro fuel
  induction fuel with
  | zero => intro idx st; rfl
  | succ n ih =>
    intro idx st
    rw [protocolLoop]
    simp only [MAX_RETRIES]
    norm_num
    cases hoc : oracle idx with
    | resolved resp => exact ih (idx + 1) _
    | thrown e =>
      have := hres idx
      rw [hoc] at this
      simp [Outcome.isResolved] at this

/-- Helper: the fan-out resolves only for the empty protocol list, and then
the locals are untouched. -/
theorem runProtocols_resolved (oracle : ProtocolType → Nat → Outcome)
    (fuel : Nat) :
    ∀ ps st st2, runProtocols oracle fuel ps st = some (none, st2) →
      ps = [] ∧ st2 = st := by
  intro ps st st2 h
  cases ps with
  | nil =>
    refine ⟨rfl, ?_⟩
    simp [runProtocols] at h
    exact h.symm
  | cons p rest =>
    exfalso
    rw [runProtocols] at h
    cases hp : protocolLoop (oracle p) p fuel 0 0 st with
    | none => rw [hp] at h; simp at h
    | some r =>
      have hthrow := protocolLoop_exit_isThrow (oracle p) p fuel 0 st r hp
      cases r with
      | mk oe st3 =>
        cases oe with
        | none => simp at hthrow
        | some e =>
          rw [hp] at h
          simp at h

/-- Claim C1 failing input: the requested list is the single protocol opus,
whose getHoldings (src/src/services/protocols/opus.ts has no try/catch around
its body) throws on every attempt; getMultiProtocolHoldings rejects as a
whole with that error instead of isolating the failure. -/
theorem claim_C1 :
    getMultiProtocolHoldings (fun _ _ => Outcome.thrown "opus RPC failure") 5
      [ProtocolType.opus] = RunOutcome.rejected "opus RPC failure" := rfl

/-- Claim C2: in getMultiProtocolHoldings, (a) when the requested list is
nonempty and every getProtocolHoldings invocation resolves (success true or
false alike), the call never returns for any amount of fuel; (b) a resolved
overall result forces the requested list to be empty; (c) the per-protocol
while loop, started at retry = 0, never exits through its loop condition -
every exit of the loop carries a thrown error. -/
theorem claim_C2 :
    (∀ (oracle : ProtocolType → Nat → Outcome) (ps : List ProtocolType)
        (fuel : Nat), ps ≠ [] → (∀ p i, (oracle p i).isResolved = true) →
        getMultiProtocolHoldings oracle fuel ps = RunOutcome.diverged)
    ∧ (∀ (oracle : ProtocolType → Nat → Outcome) (ps : List ProtocolType)
        (fuel : Nat) (res : MultiProtocolHoldings),
        getMultiProtocolHoldings oracle fuel ps = RunOutcome.ok res → ps = [])
    ∧ (∀ (oracle : Nat → Outcome) (p : ProtocolType) (fuel idx : Nat)
        (st st2 : AggState),
        protocolLoop oracle p fuel 0 idx st ≠ some (none, st2)) := by
  refine ⟨?_, ?_, ?_⟩
  · intro oracle ps fuel hne hres
    cases ps with
    | nil => exact absurd rfl hne
    | cons p rest =>
      unfold getMultiProtocolHoldings
      rw [runProtocols]
      rw [protocolLoop_allResolved (oracle p) p (hres p) fuel 0 initAggState]
  · intro oracle ps fuel res h
    unfold getMultiProtocolHoldings at h
    cases hr : runProtocols oracle fuel ps initAggState with
    | none => rw [hr] at h; simp at h
    | some r =>
      cases r with
      | mk oe st =>
        cases oe with
        | some e => rw [hr] at h; simp at h
        | none => exact (runProtocols_resolved oracle fuel ps initAggState st hr).1
  · intro oracle p fuel idx st st2 h
    have := protocolLoop_exit_isThrow oracle p fuel idx st (none, st2) h
    simp at this

/-- Claim C2 witness: a single all-resolving protocol never lets the call
return within fuel 7. -/
theorem claim_C2_witness :
    getMultiProtocolHoldings
      (fun _ _ => Outcome.resolved
        { success := true, data := some { xSTRKAmount := 3, STRKAmount := 4 },
          error := none, protocol := "lst", timestamp := 0 }) 7
      [ProtocolType.lst] = RunOutcome.diverged :=
  claim_C2.1 _ _ 7 (by simp) (fun _ _ => rfl)

/-- The eight supported protocols in the order of the byProtocol literal. -/
def allProtocols : List ProtocolType :=
  [ProtocolType.lst, ProtocolType.ekubo, ProtocolType.nostraLending,
   ProtocolType.nostraDex, ProtocolType.opus, ProtocolType.strkfarm,
   ProtocolType.strkfarmEkubo, ProtocolType.vesu]

/-- The value getMultiProtocolHoldings resolves to for an empty requested
list: zero total and the full eight-entry byProtocol record. -/
def emptyRunResult : MultiProtocolHoldings :=
  { total := zeroHoldings, byProtocol := initByProtocol, protocols := [] }

/-- Claim C3 counterexample: requesting the empty protocol subset produces a
resolved result whose byProtocol record still holds all eight protocols, so
unrequested protocols (ekubo among them) appear and the key set is not the
requested set. -/
theorem claim_C3_counterexample :
    getMultiProtocolHoldings (fun _ _ => Outcome.thrown "e") 1 []
        = RunOutcome.ok emptyRunResult
      ∧ emptyRunResult.byProtocol.map Prod.fst = allProtocols
      ∧ (ProtocolType.ekubo ∈ ([] : List ProtocolType)) = False := by
  refine ⟨rfl, rfl, ?_⟩
  simp

/-- Claim C3 as amended: whenever getMultiProtocolHoldings resolves, its
byProtocol record carries an entry for every one of the eight supported
protocols (so in particular for every requested protocol, defaulted to zero
holdings), independent of the requested subset; unrequested protocols appear
as well, so the key set is the full protocol universe rather than exactly the
requested set. -/
theorem claim_C3 (oracle : ProtocolType → Nat → Outcome) (fuel : Nat)
    (ps : List ProtocolType) (res : MultiProtocolHoldings)
    (h : getMultiProtocolHoldings oracle fuel ps = RunOutcome.ok res) :
    res.byProtocol.map Prod.fst = allProtocols
      ∧ ∀ p : ProtocolType, p ∈ res.byProtocol.map Prod.fst := by
  unfold getMultiProtocolHoldings at h
  cases hr : runProtocols oracle fuel ps initAggState with
  | none => rw [hr] at h; simp at h
  | some r =>
    cases r with
    | mk oe st =>
      cases oe with
      | some e => rw [hr] at h; simp at h
      | none =>
        have hres := runProtocols_resolved oracle fuel ps initAggState st hr
        rw [hr] at h
        simp at h
        have hby : res.byProtocol = initByProtocol := by
          rw [← h, hres.2]
          rfl
        constructor
        · rw [hby]; rfl
        · intro p
          rw [hby]
          cases p <;> simp [initByProtocol, allProtocols]

/-- Claim C3 witness: the amended statement evaluated on the resolving run of
the empty requested list. -/
theorem claim_C3_witness :
    emptyRunResult.byProtocol.map Prod.fst = allProtocols
      ∧ ∀ p : ProtocolType, p ∈ emptyRunResult.byProtocol.map Prod.fst :=
  claim_C3 (fun _ _ => Outcome.thrown "e") 1 [] emptyRunResult rfl

/-- The exact componentwise sum claimed for total: each requested protocol
contributes the holdings of its successful fetch, and a protocol whose fetch
failed or was unsuccessful contributes exactly zero. -/
def successfulTotal (oracle : ProtocolType → Nat → Outcome) :
    List ProtocolType → ProtocolHoldings
  | [] => zeroHoldings
  | p :: ps =>
    let c :=
      match oracle p 0 with
      | Outcome.resolved r =>
          if r.success && r.data.isSome then r.data.getD zeroHoldings
          else zeroHoldings
      | Outcome.thrown _ => zeroHoldings
    addHoldings c (successfulTotal oracle ps)

/-- Claim C4: whenever getMultiProtocolHoldings produces a result, its total
equals the exact componentwise integer sum of the holdings of the successful
per-protocol fetches, failed or unsuccessful protocols contributing exactly
zero.  By claim C2 the only resolving executions are those of the empty
requested list, where both sides are the zero holdings. -/
theorem claim_C4 (oracle : ProtocolType → Nat → Outcome) (fuel : Nat)
    (ps : List ProtocolType) (res : MultiProtocolHoldings)
    (h : getMultiProtocolHoldings oracle fuel ps = RunOutcome.ok res) :
    res.total = successfulTotal oracle ps := by
  unfold getMultiProtocolHoldings at h
  cases hr : runProtocols oracle fuel ps initAggState with
  | none => rw [hr] at h; simp at h
  | some r =>
    cases r with
    | mk oe st =>
      cases oe with
      | some e => rw [hr] at h; simp at h
      | none =>
        have hres := runProtocols_resolved oracle fuel ps initAggState st hr
        rw [hr] at h
        simp at h
        rw [← h, hres.1, hres.2]
        rfl

/-- Claim C4 witness: the total of the resolving empty-list run equals the
empty successful sum. -/
theorem claim_C4_witness :
    emptyRunResult.total
      = successfulTotal (fun _ _ => Outcome.thrown "e") [] :=
  claim_C4 (fun _ _ => Outcome.thrown "e") 1 [] emptyRunResult rfl

/-- sub is a leading segment of the character list. -/
def leadsWith : List Char → List Char → Bool
  | [], _ => true
  | _ :: _, [] => false
  | a :: as, b :: bs => a == b && leadsWith as bs

/-- sub occurs contiguously somewhere in the character list. -/
def occursIn : List Char → List Char → Bool
  | sub, [] => sub.isEmpty
  | sub, c :: rest => leadsWith sub (c :: rest) || occursIn sub rest

/-- JS String.prototype.includes, used as error.message.includes(...). -/
def jsIncludes (s sub : String) : Bool := occursIn sub.toList s.toList

/-- The decoded output of an Ekubo get_token_info call: current amounts and
uncollected fees on each side of the position. -/
structure TokenInfo where
  amount0 : Int
  fees0 : Int
  amount1 : Int
  fees1 : Int
deriving DecidableEq, Repr

/-- The outcome of one get_token_info chain call. -/
inductive ChainCall where
  | ok (t : TokenInfo)
  | err (msg : String)
deriving DecidableEq, Repr

/-- One Ekubo position descriptor as the loop consumes it.  The bound, fee and
extension fields only feed the arguments of the chain call, so they are elided
and the outcome of the call made for this position is attached directly. -/
structure EkuboPosition where
  position_id : String
  tokenInfoCall : ChainCall
deriving DecidableEq, Repr

/-- Mainnet xSTRK address from EKUBO_CONFIG, also used as poolKey.token0. -/
def ekuboXSTRKAddress : String :=
  "0x28d709c875c0ceac3dce7065bec5328186dc89fe254527084d1689910954b0a"

/-- Ekubo mainnet position-contract deployment block. -/
def ekuboDeploymentBlock : Int := 165388

/-- The position loop of EkuboHoldingsService.getEkuboHoldings (ekubo.ts
lines 139 to 188) over the two BigInt accumulators: a falsy position_id is
skipped; a successful call adds amount plus fees on each axis (poolKey.token0
is literally the configured xSTRK address, so the token0 branch is compared
against itself); a failing call whose message contains NOT_INITIALIZED is
skipped; any other failing call aborts the loop, and the result carries the
accumulators as they stood together with the rethrown message. -/
def ekuboPositionLoop : List EkuboPosition → Int → Int → (Int × Int) × Option String
  | [], x, s => ((x, s), none)
  | pos :: rest, x, s =>
    if pos.position_id = "" then ekuboPositionLoop rest x s
    else
      match pos.tokenInfoCall with
      | ChainCall.ok t =>
        if ekuboXSTRKAddress = ekuboXSTRKAddress then
          ekuboPositionLoop rest (x + t.amount0 + t.fees0) (s + t.amount1 + t.fees1)
        else
          ekuboPositionLoop rest (x + t.amount1 + t.fees1) (s + t.amount0 + t.fees0)
      | ChainCall.err m =>
        if jsIncludes m "NOT_INITIALIZED" then ekuboPositionLoop rest x s
        else ((x, s), some m)

/-- The position-list fetch (block lookup plus GraphQL query plus response
validation): either a list of positions or a failure before the loop starts. -/
inductive PositionsFetch where
  | ok (positions : List EkuboPosition)
  | err (msg : String)
deriving DecidableEq, Repr

/-- EkuboHoldingsService.getEkuboHoldings: deployment-gated; the outer
try/catch only logs, and the function falls through to return the
accumulators - zero when the fetch failed before the loop, but the sums
accumulated up to the abort when the loop stopped on a chain error. -/
def getEkuboHoldings (blockNumber : Option BlockId) (fetch : PositionsFetch) :
    ProtocolHoldings :=
  if !(isContractDeployedOpt blockNumber ekuboDeploymentBlock none) then
    zeroHoldings
  else
    match fetch with
    | PositionsFetch.err _ => { xSTRKAmount := 0, STRKAmount := 0 }
    | PositionsFetch.ok positions =>
      let r := ekuboPositionLoop positions 0 0
      { xSTRKAmount := r.1.1, STRKAmount := r.1.2 }

/-- Claim C6 failing input: position 1 succeeds with amounts 5+1 and 7+2,
position 2 fails with an error not containing NOT_INITIALIZED, position 3
would succeed.  The loop aborts, yet the protocol outcome keeps the
accumulated sums (6, 9) from position 1 instead of the zero holdings that the claim and
the source comment (Return zero holdings on error) prescribe; the
NOT_INITIALIZED path, by contrast, skips and continues as claimed. -/
theorem claim_C6 :
    getEkuboHoldings (some (BlockId.intNum 200000))
        (PositionsFetch.ok
          [{ position_id := "1",
             tokenInfoCall :=
               ChainCall.ok { amount0 := 5, fees0 := 1, amount1 := 7, fees1 := 2 } },
           { position_id := "2", tokenInfoCall := ChainCall.err "RPC timeout" },
           { position_id := "3",
             tokenInfoCall :=
               ChainCall.ok { amount0 := 100, fees0 := 0, amount1 := 0, fees1 := 0 } }])
      = { xSTRKAmount := 6, STRKAmount := 9 }
    ∧ ({ xSTRKAmount := 6, STRKAmount := 9 } : ProtocolHoldings) ≠ zeroHoldings
    ∧ getEkuboHoldings (some (BlockId.intNum 200000))
        (PositionsFetch.ok
          [{ position_id := "1",
             tokenInfoCall := ChainCall.err "position NOT_INITIALIZED yet" },
           { position_id := "2",
             tokenInfoCall :=
               ChainCall.ok { amount0 := 3, fees0 := 0, amount1 := 4, fees1 := 0 } }])
      = { xSTRKAmount := 3, STRKAmount := 4 } := by
  refine ⟨rfl, by decide, rfl⟩

/-- The five Nostra lending receipt-token vaults (nostraLending.ts). -/
inductive NostraVault where
  | nXSTRK
  | nXSTRKC
  | iXSTRK
  | iXSTRKC
  | dXSTRK
deriving DecidableEq, Repr

/-- Mainnet deployment blocks from NOSTRA_CONFIG. -/
def nostraVaultDeploymentBlock : NostraVault → Int
  | NostraVault.nXSTRK => 968482
  | NostraVault.nXSTRKC => 968483
  | NostraVault.iXSTRK => 968483
  | NostraVault.iXSTRKC => 968484
  | NostraVault.dXSTRK => 968481

/-- True when the Except carries a value rather than an error. -/
def exceptOk {α : Type} : Except String α → Bool
  | Except.ok _ => true
  | Except.error _ => false

/-- NostraLendingHoldingsService.getVaultHoldings: zero holdings without any
chain call when the vault contract is not deployed at the queried block,
otherwise the balance_of result as xSTRKAmount with zero STRKAmount; a
balance_of rejection propagates. -/
def getVaultHoldings (bn : Option BlockId) (balanceOf : NostraVault → Except String Int)
    (v : NostraVault) : Except String ProtocolHoldings :=
  if !(isContractDeployedOpt bn (nostraVaultDeploymentBlock v) none) then
    Except.ok zeroHoldings
  else
    match balanceOf v with
    | Except.ok b => Except.ok { xSTRKAmount := b, STRKAmount := 0 }
    | Except.error e => Except.error e

/-- The five vaults in the order of the Promise.all array. -/
def nostraVaultOrder : List NostraVault :=
  [NostraVault.nXSTRK, NostraVault.nXSTRKC, NostraVault.iXSTRK,
   NostraVault.iXSTRKC, NostraVault.dXSTRK]

/-- Promise.all over the per-vault fetches: the list of holdings when every
fetch resolves, the error of a rejecting fetch otherwise. -/
def collectVaultHoldings (bn : Option BlockId)
    (balanceOf : NostraVault → Except String Int) :
    List NostraVault → Except String (List ProtocolHoldings)
  | [] => Except.ok []
  | v :: vs =>
    match getVaultHoldings bn balanceOf v with
    | Except.error e => Except.error e
    | Except.ok h =>
      match collectVaultHoldings bn balanceOf vs with
      | Except.error e => Except.error e
      | Except.ok hs => Except.ok (h :: hs)

/-- NostraLendingHoldingsService.getNostraHoldings (nostraLending.ts lines 92
to 118): Promise.all over the five vault fetches, then the summation loop. -/
def getNostraHoldings (bn : Option BlockId)
    (balanceOf : NostraVault → Except String Int) : Except String ProtocolHoldings :=
  match collectVaultHoldings bn balanceOf nostraVaultOrder with
  | Except.error e => Except.error e
  | Except.ok hs => Except.ok (hs.foldl addHoldings zeroHoldings)

/-- The contribution the claim assigns to each vault: its fetched balance when
deployed and successful, zero otherwise. -/
def nostraVaultContribution (bn : Option BlockId)
    (balanceOf : NostraVault → Except String Int) (v : NostraVault) : Int :=
  if isContractDeployedOpt bn (nostraVaultDeploymentBlock v) none then
    match balanceOf v with
    | Except.ok b => b
    | Except.error _ => 0
  else 0

/-- Helper: folding holdings with componentwise addition sums the components. -/
theorem foldl_addHoldings (hs : List ProtocolHoldings) (a : ProtocolHoldings) :
    hs.foldl addHoldings a =
      { xSTRKAmount := a.xSTRKAmount + (hs.map ProtocolHoldings.xSTRKAmount).sum,
        STRKAmount := a.STRKAmount + (hs.map ProtocolHoldings.STRKAmount).sum } := by
  induction hs generalizing a with
  | nil => simp
  | cons h rest ih =>
    simp only [List.foldl_cons, List.map_cons, List.sum_cons, ih, addHoldings,
      ProtocolHoldings.mk.injEq]
    omega

/-- Helper: a vault whose fetch cannot reject resolves to exactly its claimed
contribution. -/
theorem getVaultHoldings_contribution (bn : Option BlockId)
    (balanceOf : NostraVault → Except String Int) (v : NostraVault)
    (h : isContractDeployedOpt bn (nostraVaultDeploymentBlock v) none = true →
      exceptOk (balanceOf v) = true) :
    getVaultHoldings bn balanceOf v =
      Except.ok { xSTRKAmount := nostraVaultContribution bn balanceOf v,
                  STRKAmount := 0 } := by
  by_cases hd : isContractDeployedOpt bn (nostraVaultDeploymentBlock v) none = true
  · cases hb : balanceOf v with
    | ok b => simp [getVaultHoldings, nostraVaultContribution, hd, hb]
    | error e =>
      have := h hd
      rw [hb] at this
      simp [exceptOk] at this
  · simp at hd
    simp [getVaultHoldings, nostraVaultContribution, hd, zeroHoldings]

/-- Helper: when no deployed vault rejects, Promise.all resolves to the
contribution list. -/
theorem collectVaultHoldings_ok (bn : Option BlockId)
    (balanceOf : NostraVault → Except String Int)
    (h : ∀ v, isContractDeployedOpt bn (nostraVaultDeploymentBlock v) none = true →
      exceptOk (balanceOf v) = true) :
    ∀ vs, collectVaultHoldings bn balanceOf vs =
      Except.ok (vs.map fun v =>
        ({ xSTRKAmount := nostraVaultContribution bn balanceOf v,
           STRKAmount := 0 } : ProtocolHoldings)) := by
  intro vs
  induction vs with
  | nil => rfl
  | cons v rest ih =>
    rw [collectVaultHoldings, getVaultHoldings_contribution bn balanceOf v (h v), ih]
    rfl

/-- Helper: a rejecting fetch of a listed vault rejects the whole Promise.all. -/
theorem collectVaultHoldings_err (bn : Option BlockId)
    (balanceOf : NostraVault → Except String Int) :
    ∀ vs v, v ∈ vs → exceptOk (getVaultHoldings bn balanceOf v) = false →
      exceptOk (collectVaultHoldings bn balanceOf vs) = false := by
  intro vs
  induction vs with
  | nil => intro v hv; simp at hv
  | cons w rest ih =>
    intro v hv herr
    rcases List.mem_cons.mp hv with hw | htail
    · have herr2 : exceptOk (getVaultHoldings bn balanceOf w) = false := by
        rw [← hw]; exact herr
      cases hg : getVaultHoldings bn balanceOf w with
      | ok h => rw [hg] at herr2; simp [exceptOk] at herr2
      | error e => rw [collectVaultHoldings, hg]; rfl
    · cases hg : getVaultHoldings bn balanceOf w with
      | ok h =>
        rw [collectVaultHoldings, hg]
        cases hc : collectVaultHoldings bn balanceOf rest with
        | ok hs =>
          have := ih v htail herr
          rw [hc] at this
          simp [exceptOk] at this
        | error e => rfl
      | error e => rw [collectVaultHoldings, hg]; rfl

/-- Claim C7 counterexample: at the pending block all five vaults are
deployed; the nXSTRK balance fetch rejects while the four siblings would
return 1, 2, 3 and 4, and the whole Nostra lending fetch rejects with that
error - no five-way sum carrying the siblings is produced, contradicting the
claimed isolation of a failed vault. -/
theorem claim_C7_counterexample :
    getNostraHoldings none
        (fun v =>
          match v with
          | NostraVault.nXSTRK => Except.error "balance_of reverted"
          | NostraVault.nXSTRKC => Except.ok 1
          | NostraVault.iXSTRK => Except.ok 2
          | NostraVault.iXSTRKC => Except.ok 3
          | NostraVault.dXSTRK => Except.ok 4)
      = Except.error "balance_of reverted"
    ∧ exceptOk (getNostraHoldings none
        (fun v =>
          match v with
          | NostraVault.nXSTRK => Except.error "balance_of reverted"
          | NostraVault.nXSTRKC => Except.ok 1
          | NostraVault.iXSTRK => Except.ok 2
          | NostraVault.iXSTRKC => Except.ok 3
          | NostraVault.dXSTRK => Except.ok 4)) = false := by
  exact ⟨rfl, rfl⟩

/-- Claim C7 as amended: a vault that is not yet deployed at the queried block
contributes zero holdings without aborting the sibling fetches - when every
deployed vault fetch succeeds, the result is the five-way sum in which each
deployed vault contributes its balance and each undeployed vault contributes
zero; but a deployed vault whose balance fetch fails aborts the entire Nostra
lending fetch through Promise.all, so the protocol response carries no sum at
all rather than an incomplete one. -/
theorem claim_C7 :
    (∀ (bn : Option BlockId) (balanceOf : NostraVault → Except String Int),
      (∀ v, isContractDeployedOpt bn (nostraVaultDeploymentBlock v) none = true →
        exceptOk (balanceOf v) = true) →
      getNostraHoldings bn balanceOf =
        Except.ok
          { xSTRKAmount :=
              (nostraVaultOrder.map (nostraVaultContribution bn balanceOf)).sum,
            STRKAmount := 0 })
    ∧ (∀ (bn : Option BlockId) (balanceOf : NostraVault → Except String Int)
        (v : NostraVault),
        isContractDeployedOpt bn (nostraVaultDeploymentBlock v) none = true →
        exceptOk (balanceOf v) = false →
        exceptOk (getNostraHoldings bn balanceOf) = false) := by
  constructor
  · intro bn balanceOf h
    have hc := collectVaultHoldings_ok bn balanceOf h nostraVaultOrder
    simp only [getNostraHoldings, hc]
    simp only [nostraVaultOrder, List.map_cons, List.map_nil, List.foldl_cons,
      List.foldl_nil, List.sum_cons, List.sum_nil, addHoldings, zeroHoldings,
      Except.ok.injEq, ProtocolHoldings.mk.injEq]
    omega
  · intro bn balanceOf v hd herr
    have hv : v ∈ nostraVaultOrder := by cases v <;> simp [nostraVaultOrder]
    have hvault : exceptOk (getVaultHoldings bn balanceOf v) = false := by
      cases hb : balanceOf v with
      | ok b => rw [hb] at herr; simp [exceptOk] at herr
      | error e => simp [getVaultHoldings, hd, hb]; rfl
    have := collectVaultHoldings_err bn balanceOf nostraVaultOrder v hv hvault
    rw [getNostraHoldings]
    cases hc : collectVaultHoldings bn balanceOf nostraVaultOrder with
    | ok hs => rw [hc] at this; simp [exceptOk] at this
    | error e => rfl

/-- Claim C7 witness: at block 968482 only nXSTRK and dXSTRK are deployed;
their balances 5 and 7 are summed while the three undeployed vaults (whose
oracle would reject if consulted) contribute zero. -/
theorem claim_C7_witness :
    getNostraHoldings (some (BlockId.intNum 968482))
        (fun v =>
          match v with
          | NostraVault.nXSTRK => Except.ok 5
          | NostraVault.dXSTRK => Except.ok 7
          | _ => Except.error "not deployed yet")
      = Except.ok { xSTRKAmount := 12, STRKAmount := 0 } := by
  have h := claim_C7.1 (some (BlockId.intNum 968482))
    (fun v =>
      match v with
      | NostraVault.nXSTRK => Except.ok 5
      | NostraVault.dXSTRK => Except.ok 7
      | _ => Except.error "not deployed yet")
    (by intro v; cases v <;> decide)
  rw [h]
  rfl

/-- The pro-rata computation of NostraDexHoldingsService.getLPHoldings
(nostraDex.ts lines 107 to 124): with a zero total supply both shares are
literal zeros, otherwise each share is balance divided by totalSupply times
the reserve, then Math.floor.  The JS Number arithmetic is modelled exactly
over Rat; the concrete values below are exactly representable in binary64. -/
def lpShares (balanceNum totalSupplyNum reserve0Num reserve1Num : Rat) :
    Int × Int :=
  let xSTRKTokenBal : Rat :=
    if totalSupplyNum = 0 then 0 else balanceNum / totalSupplyNum * reserve0Num
  let STRKTokenBal : Rat :=
    if totalSupplyNum = 0 then 0 else balanceNum / totalSupplyNum * reserve1Num
  (⌊xSTRKTokenBal⌋, ⌊STRKTokenBal⌋)

/-- The shape the spec words prescribe for one side of the LP share:
floor(balance / totalSupply * reserve). -/
def proRataFloor (balance totalSupply reserve : Rat) : Int :=
  ⌊balance / totalSupply * reserve⌋

/-- Nostra DEX LP token mainnet deployment block. -/
def nostraDexDeploymentBlock : Int := 940755

/-- NostraDexHoldingsService.getLPHoldings: deployment-gated, then the
pro-rata shares of the two reserves from the three chain reads. -/
def getLPHoldings (bn : Option BlockId)
    (balance totalSupply reserve0 reserve1 : Rat) : ProtocolHoldings :=
  if !(isContractDeployedOpt bn nostraDexDeploymentBlock none) then zeroHoldings
  else
    { xSTRKAmount := (lpShares balance totalSupply reserve0 reserve1).1,
      STRKAmount := (lpShares balance totalSupply reserve0 reserve1).2 }

/-- Claim C8: away from a zero total supply each side of the LP valuation is
floor(balance / totalSupply * reserveN); the concrete example 50 of 100 LP
supply against reserves 1000 and 2000 values to (500, 1000); and a zero total
supply yields (0, 0) with no division performed. -/
theorem claim_C8 :
    (∀ b ts r0 r1 : Rat, ts ≠ 0 →
      lpShares b ts r0 r1 = (proRataFloor b ts r0, proRataFloor b ts r1))
    ∧ lpShares 50 100 1000 2000 = (500, 1000)
    ∧ (∀ b r0 r1 : Rat, lpShares b 0 r0 r1 = (0, 0)) := by
  refine ⟨?_, ?_, ?_⟩
  · intro b ts r0 r1 hts
    simp [lpShares, proRataFloor, hts]
  · have e0 : (50 : Rat) / 100 * 1000 = ((500 : Int) : Rat) := by norm_num
    have e1 : (50 : Rat) / 100 * 2000 = ((1000 : Int) : Rat) := by norm_num
    have hts : ¬ (100 : Rat) = 0 := by norm_num
    simp [lpShares, hts, e0, e1]
  · intro b r0 r1
    simp [lpShares]

/-- Claim C8 witness: the general pro-rata formula instantiated at the
concrete example supply of 100. -/
theorem claim_C8_witness :
    lpShares 50 100 1000 2000 =
      (proRataFloor 50 100 1000, proRataFloor 50 100 2000) :=
  claim_C8.1 50 100 1000 2000 (by norm_num)

/-- LSTHoldingsService.getExchangeRate (lst.ts lines 111 to 121) as a
function of the two vault reads, which are u256 values and hence Nat: a zero
total supply short-circuits to the string "0"; otherwise the rate is
BigInt(totalAssets) * BigInt(10 ** 18) / BigInt(totalSupply) rendered in
decimal (10 ** 18 is exactly representable in binary64, and BigInt division
of nonnegative values is floor division). -/
def getExchangeRate (totalAssets totalSupply : Nat) : String :=
  if totalSupply = 0 then "0"
  else Nat.repr (totalAssets * 10 ^ 18 / totalSupply)

/-- Claim C9 counterexample: at the inputs the claim itself supplies
(totalAssets 2 times 10 to the 21, totalSupply 10 to the 18) the code returns
the decimal string of 2 times 10 to the 21, not of the claimed 2 times 10 to
the 18. -/
theorem claim_C9_counterexample :
    getExchangeRate 2000000000000000000000 1000000000000000000
        = Nat.repr (2 * 10 ^ 21)
      ∧ getExchangeRate 2000000000000000000000 1000000000000000000
        ≠ Nat.repr (2 * 10 ^ 18) := by
  have hq : (2000000000000000000000 * 10 ^ 18 / 1000000000000000000 : Nat)
      = 2 * 10 ^ 21 := by norm_num
  constructor
  · simp [getExchangeRate, hq]
  · simp [getExchangeRate, hq]
    decide

/-- Claim C9 as amended: for every pair of vault reads the rate is the
truncated integer quotient totalAssets times 10 to the 18 divided by
totalSupply, rendered as a decimal string; a zero total supply returns
exactly "0" without raising; and the concrete inputs of the claim
(totalAssets 2 times 10 to the 21, totalSupply 10 to the 18) yield 2 times
10 to the 21, that is the per-share rate 2000 scaled by 10 to the 18. -/
theorem claim_C9 :
    (∀ totalAssets totalSupply : Nat, totalSupply ≠ 0 →
      getExchangeRate totalAssets totalSupply
        = Nat.repr (totalAssets * 10 ^ 18 / totalSupply))
    ∧ (∀ totalAssets : Nat, getExchangeRate totalAssets 0 = "0")
    ∧ getExchangeRate 2000000000000000000000 1000000000000000000
        = Nat.repr (2 * 10 ^ 21) := by
  refine ⟨?_, ?_, ?_⟩
  · intro totalAssets totalSupply hs
    simp [getExchangeRate, hs]
  · intro totalAssets
    rfl
  · have hq : (2000000000000000000000 * 10 ^ 18 / 1000000000000000000 : Nat)
        = 2 * 10 ^ 21 := by norm_num
    simp [getExchangeRate, hq]

/-- Claim C9 witness: the quotient formula applied to reads 10 and 5. -/
theorem claim_C9_witness :
    getExchangeRate 10 5 = Nat.repr (10 * 10 ^ 18 / 5) :=
  claim_C9.1 10 5 (by decide)

/-- NostraLendingHoldingsService.getHoldings (nostraLending.ts lines 68 to
90): a validation failure or a rejected inner fetch becomes success false,
a resolved fetch success true with the holdings, and both branches label the
response with the literal protocol string nostra. -/
def nostraLendingGetHoldings (validationError : Option String)
    (bn : Option BlockId) (balanceOf : NostraVault → Except String Int)
    (now : Nat) : HoldingsResponse :=
  match validationError with
  | some e =>
    { success := false, data := none, error := some e, protocol := "nostra",
      timestamp := now }
  | none =>
    match getNostraHoldings bn balanceOf with
    | Except.ok h =>
      { success := true, data := some h, error := none, protocol := "nostra",
        timestamp := now }
    | Except.error e =>
      { success := false, data := none, error := some e, protocol := "nostra",
        timestamp := now }

/-- NostraDexHoldingsService.getHoldings (nostraDex.ts lines 36 to 58): the
three LP chain reads either all resolve (giving balance, totalSupply and the
two reserves) or the first rejection propagates; both the success and the
failure response carry the literal protocol string nostra. -/
def nostraDexGetHoldings (validationError : Option String)
    (bn : Option BlockId) (lpReads : Except String (Rat × Rat × Rat × Rat))
    (now : Nat) : HoldingsResponse :=
  match validationError with
  | some e =>
    { success := false, data := none, error := some e, protocol := "nostra",
      timestamp := now }
  | none =>
    match lpReads with
    | Except.ok (balance, totalSupply, reserve0, reserve1) =>
      { success := true,
        data := some (getLPHoldings bn balance totalSupply reserve0 reserve1),
        error := none, protocol := "nostra", timestamp := now }
    | Except.error e =>
      { success := false, data := none, error := some e, protocol := "nostra",
        timestamp := now }

/-- Claim C10: on every path - validation failure, inner failure or success -
both Nostra services label their response with the protocol string nostra,
the two labels coincide, and neither equals the registry key (nostraLending
or nostraDex) under which the service is registered in HoldingsManager. -/
theorem claim_C10 :
    ∀ (v1 v2 : Option String) (bn : Option BlockId)
      (balanceOf : NostraVault → Except String Int)
      (lpReads : Except String (Rat × Rat × Rat × Rat)) (n1 n2 : Nat),
      (nostraLendingGetHoldings v1 bn balanceOf n1).protocol = "nostra"
      ∧ (nostraDexGetHoldings v2 bn lpReads n2).protocol = "nostra"
      ∧ (nostraLendingGetHoldings v1 bn balanceOf n1).protocol
          = (nostraDexGetHoldings v2 bn lpReads n2).protocol
      ∧ (nostraLendingGetHoldings v1 bn balanceOf n1).protocol
          ≠ protocolKey ProtocolType.nostraLending
      ∧ (nostraDexGetHoldings v2 bn lpReads n2).protocol
          ≠ protocolKey ProtocolType.nostraDex := by
  intro v1 v2 bn balanceOf lpReads n1 n2
  have h1 : (nostraLendingGetHoldings v1 bn balanceOf n1).protocol = "nostra" := by
    cases v1 with
    | some e => rfl
    | none =>
      simp only [nostraLendingGetHoldings]
      cases getNostraHoldings bn balanceOf <;> rfl
  have h2 : (nostraDexGetHoldings v2 bn lpReads n2).protocol = "nostra" := by
    cases v2 with
    | some e => rfl
    | none =>
      simp only [nostraDexGetHoldings]
      cases lpReads with
      | ok r => rcases r with ⟨b, ts, r0, r1⟩; rfl
      | error e => rfl
  refine ⟨h1, h2, by rw [h1, h2], by rw [h1]; decide, by rw [h2]; decide⟩

/-- Claim C10 witness: the labelling facts evaluated on one concrete success
response of each service. -/
theorem claim_C10_witness :
    (nostraLendingGetHoldings none none (fun _ => Except.ok 0) 0).protocol
        = "nostra"
      ∧ (nostraDexGetHoldings none none (Except.ok (0, 0, 0, 0)) 0).protocol
        = "nostra" :=
  ⟨(claim_C10 none none none (fun _ => Except.ok 0) (Except.ok (0, 0, 0, 0)) 0 0).1,
   (claim_C10 none none none (fun _ => Except.ok 0)
      (Except.ok (0, 0, 0, 0)) 0 0).2.1⟩
